import Mathlib

/-!
# Verification of the translation-assistant interpretation pipeline

Shallow embedding of the rule-based medical action detector
(`src/lib/server/actions/ai-detector.ts`, class `ActionDetector`), the
medical term detector (`src/lib/server/medical/terminology.ts`, class
`MedicalTermDetector`), the webhook retry queue (`WebhookQueue.processWebhook`)
and the client-side translation correlation handler
(`src/components/VoiceChat/index.tsx` together with
`conversationSlice.updateUtteranceTranslation`).

The JavaScript regular expressions used by the detectors are transcribed into
a small regex AST (`RE`) with a backtracking matcher that mirrors JS regex
semantics for the feature subset the source uses: literals (all source
patterns carry the `/i` flag, so literal characters compare case-insensitively),
the classes `\s`, `\d`, `\w` with greedy `+`/`*`/`?` quantifiers, ordered
alternation, non-capturing and capturing groups, the word-boundary assertion
`\b`, and the start anchor `^`.  Matching is leftmost-first with left-biased
alternation and greedy backtracking, as in JavaScript.  Numeric confidences
are embedded as rationals; every decimal literal appearing in the source is
exactly representable, and each operation performed on confidences
(addition of non-negative literals, multiplication, `Math.min` with `1.0`)
agrees with IEEE double semantics on the values the code produces.
-/

namespace TranslationAssistant

/-- Character classes used by the source regexes: `\s`, `\d`, `\w`. -/
inductive CC where
  | ws
  | digit
  | word
deriving DecidableEq, Repr

/-- Class membership.  `\w` is `[A-Za-z0-9_]`; `\d` is `[0-9]`; `\s` here
covers the ASCII whitespace the conversation texts contain. -/
def CC.mem : CC → Char → Bool
  | .ws, c => c = ' ' || c = '\t' || c = '\n' || c = '\r'
  | .digit, c => c.isDigit
  | .word, c => c.isAlphanum || c = '_'

/-- Regex AST covering the constructs appearing in the detector patterns. -/
inductive RE where
  | eps
  | lit (c : Char)
  | cls (cc : CC)
  | clsStar (cc : CC)
  | clsPlus (cc : CC)
  | seq (a b : RE)
  | alt (a b : RE)
  | opt (a : RE)
  | grp (n : Nat) (a : RE)
  | wb
  | bos
deriving Repr

/-- Literal string as a regex (sequence of literal characters). -/
def lits (s : String) : RE :=
  s.data.foldr (fun c r => RE.seq (RE.lit c) r) RE.eps

/-- Ordered alternation of a nonempty list of alternatives (left-biased,
like `a|b|c` in JS). -/
def alts : List RE → RE
  | [] => RE.eps
  | [r] => r
  | r :: rest => RE.alt r (alts rest)

/-- Sequence of a list of regexes. -/
def rseq (l : List RE) : RE :=
  l.foldr RE.seq RE.eps

/-- Length of the maximal run of characters of class `cc` at the front. -/
def runLen (cc : CC) : List Char → Nat
  | [] => 0
  | c :: rest => if cc.mem c then runLen cc rest + 1 else 0

/-- Group captures recorded during a match: `(group index, start, stop)`. -/
abbrev Caps := List (Nat × Nat × Nat)

/-- Try ending positions `i + cnt, i + cnt - 1, …, i` in order (greedy
backtracking for a `*` quantifier). -/
def tryStar (k : Nat → Option (Nat × Caps)) (i : Nat) : Nat → Option (Nat × Caps)
  | 0 => k i
  | cnt + 1 => (k (i + cnt + 1)).orElse (fun _ => tryStar k i cnt)

/-- Try ending positions `i + cnt, …, i + 1` in order (greedy backtracking
for a `+` quantifier: at least one character). -/
def tryPlus (k : Nat → Option (Nat × Caps)) (i : Nat) : Nat → Option (Nat × Caps)
  | 0 => none
  | cnt + 1 => (k (i + cnt + 1)).orElse (fun _ => tryPlus k i cnt)

/-- Whether position `i` in `s` is on a word character. -/
def wordAt (s : List Char) (i : Nat) : Bool :=
  match s.get? i with
  | some c => CC.mem .word c
  | none => false

/-- Word boundary test at position `i` (JS `\b`): exactly one of the
neighbouring positions is a word character. -/
def boundaryAt (s : List Char) (i : Nat) : Bool :=
  (if i = 0 then false else wordAt s (i - 1)) != wordAt s i

/-- Backtracking matcher.  `matchCore s re i caps k` matches `re` against
`s` starting at index `i` and calls the continuation `k` with the index past
the match.  Literal characters compare case-insensitively (all source
patterns use the `/i` flag). -/
def matchCore (s : List Char) : RE → Nat → Caps →
    (Nat → Caps → Option (Nat × Caps)) → Option (Nat × Caps)
  | .eps, i, caps, k => k i caps
  | .lit c, i, caps, k =>
      match s.get? i with
      | some d => if c.toLower = d.toLower then k (i + 1) caps else none
      | none => none
  | .cls cc, i, caps, k =>
      match s.get? i with
      | some d => if cc.mem d then k (i + 1) caps else none
      | none => none
  | .clsStar cc, i, caps, k =>
      tryStar (fun j => k j caps) i (runLen cc (s.drop i))
  | .clsPlus cc, i, caps, k =>
      tryPlus (fun j => k j caps) i (runLen cc (s.drop i))
  | .seq a b, i, caps, k =>
      matchCore s a i caps (fun i' caps' => matchCore s b i' caps' k)
  | .alt a b, i, caps, k =>
      (matchCore s a i caps k).orElse (fun _ => matchCore s b i caps k)
  | .opt a, i, caps, k =>
      (matchCore s a i caps k).orElse (fun _ => k i caps)
  | .grp n a, i, caps, k =>
      matchCore s a i caps (fun i' caps' => k i' ((n, i, i') :: caps'))
  | .wb, i, caps, k => if boundaryAt s i then k i caps else none
  | .bos, i, caps, k => if i = 0 then k i caps else none

/-- A successful match: start index, end index, group captures. -/
structure MatchRes where
  start : Nat
  stop : Nat
  caps : Caps
deriving DecidableEq, Repr

/-- Match attempt anchored at index `i`. -/
def execAt (re : RE) (s : List Char) (i : Nat) : Option MatchRes :=
  (matchCore s re i [] (fun j caps => some (j, caps))).map
    (fun r => { start := i, stop := r.1, caps := r.2 })

/-- Scan for the leftmost match, trying start positions `i, i+1, …`
(`fuel` bounds the scan; callers pass `s.length + 1 - i`). -/
def execScan (re : RE) (s : List Char) : Nat → Nat → Option MatchRes
  | _, 0 => none
  | i, fuel + 1 => (execAt re s i).orElse (fun _ => execScan re s (i + 1) fuel)

/-- Leftmost match of `re` in `s` (JS `re.exec(s)` / `s.match(re)`). -/
def exec (re : RE) (s : List Char) : Option MatchRes :=
  execScan re s 0 (s.length + 1)

/-- JS `re.test(s)`. -/
def test (re : RE) (s : List Char) : Bool :=
  (exec re s).isSome

/-- Substring of `s` from index `a` (inclusive) to `b` (exclusive). -/
def slice (s : List Char) (a b : Nat) : List Char :=
  (s.drop a).take (b - a)

/-- The matched text `match[0]` of a match result. -/
def matchedText (s : List Char) (m : MatchRes) : List Char :=
  slice s m.start m.stop

/-- The capture `match[n]`, when group `n` participated in the match. -/
def capture (s : List Char) (m : MatchRes) (n : Nat) : Option (List Char) :=
  (m.caps.find? (fun c => c.1 = n)).map (fun c => slice s c.2.1 c.2.2)

/-- JS `s.replace(re, '')` (non-global): remove the leftmost match. -/
def removeFirstMatch (re : RE) (s : List Char) : List Char :=
  match exec re s with
  | none => s
  | some m => s.take m.start ++ s.drop m.stop

/-- All matches of `re` in `s` (JS global-flag exec loop): after a match the
scan resumes at its end.  All patterns used globally match at least one
character, so the scan always progresses; `fuel` makes the loop total. -/
def execAllFrom (re : RE) (s : List Char) : Nat → Nat → List MatchRes
  | _, 0 => []
  | i, fuel + 1 =>
      match execScan re s i (s.length + 1 - i) with
      | none => []
      | some m =>
          m :: execAllFrom re s (if m.stop > i then m.stop else i + 1) fuel

/-- All matches of `re` in `s`, leftmost first. -/
def execAll (re : RE) (s : List Char) : List MatchRes :=
  execAllFrom re s 0 (s.length + 1)

/-! ## Medical term index (`MedicalTermDetector`) -/

/-- Term category (`MedicalTerm['category']`). -/
inductive Category where
  | medication
  | procedure
  | condition
  | anatomy
  | lab
deriving DecidableEq, Repr

/-- External code sets attached to a term (`MedicalTerm['codes']`). -/
structure Codes where
  icd10 : Option (List String) := none
  rxnorm : Option String := none
  loinc : Option String := none
  cpt : Option (List String) := none
deriving DecidableEq, Repr

/-- One dictionary entry (`MedicalTerm`). -/
structure MedicalTerm where
  term : String
  category : Category
  synonyms : List String
  codes : Codes := {}
deriving DecidableEq, Repr

/-- A dictionary hit (`DetectedTerm extends MedicalTerm`). -/
structure DetectedTerm extends MedicalTerm where
  confidence : ℚ
  position : Nat
  matchedText : Option String := none
deriving DecidableEq, Repr

/-- The static dictionary loaded by `loadMedicalDictionary`, in insertion
order (medications, conditions, labs, procedures, anatomy); the `Map` keyed
by the lowercase term preserves this order and has no key collisions. -/
def medicalDictionary : List MedicalTerm :=
  [ { term := "amoxicillin", category := .medication, synonyms := ["amoxil"],
      codes := { rxnorm := some ("723") } },
    { term := "ibuprofen", category := .medication, synonyms := ["advil", "motrin"],
      codes := { rxnorm := some ("5640") } },
    { term := "metformin", category := .medication, synonyms := ["glucophage"],
      codes := { rxnorm := some ("6809") } },
    { term := "lisinopril", category := .medication, synonyms := ["prinivil", "zestril"],
      codes := { rxnorm := some ("29046") } },
    { term := "aspirin", category := .medication, synonyms := ["asa", "acetylsalicylic acid"],
      codes := { rxnorm := some ("1191") } },
    { term := "tylenol", category := .medication, synonyms := ["acetaminophen", "paracetamol"],
      codes := { rxnorm := some ("161") } },
    { term := "prednisone", category := .medication, synonyms := ["deltasone"],
      codes := { rxnorm := some ("8640") } },
    { term := "antibiotic", category := .medication, synonyms := ["antibiotics"] },
    { term := "pain medication", category := .medication,
      synonyms := ["pain med", "pain meds", "painkiller", "analgesic"] },
    { term := "diabetes", category := .condition, synonyms := ["diabetes mellitus", "dm"],
      codes := { icd10 := some (["E11", "E10"]) } },
    { term := "hypertension", category := .condition, synonyms := ["high blood pressure", "htn"],
      codes := { icd10 := some (["I10"]) } },
    { term := "asthma", category := .condition, synonyms := ["reactive airway disease"],
      codes := { icd10 := some (["J45"]) } },
    { term := "pneumonia", category := .condition, synonyms := ["lung infection"],
      codes := { icd10 := some (["J18"]) } },
    { term := "cbc", category := .lab, synonyms := ["complete blood count", "blood count"],
      codes := { loinc := some ("58410-2") } },
    { term := "metabolic panel", category := .lab,
      synonyms := ["bmp", "basic metabolic panel", "cmp", "comprehensive metabolic panel"],
      codes := { loinc := some ("24323-8") } },
    { term := "glucose", category := .lab, synonyms := ["blood sugar", "blood glucose"],
      codes := { loinc := some ("2345-7") } },
    { term := "hemoglobin a1c", category := .lab,
      synonyms := ["hba1c", "a1c", "glycated hemoglobin"],
      codes := { loinc := some ("4548-4") } },
    { term := "x-ray", category := .procedure, synonyms := ["radiograph", "xray"],
      codes := { cpt := some (["70000-79999"]) } },
    { term := "mri", category := .procedure, synonyms := ["magnetic resonance imaging"],
      codes := { cpt := some (["70336", "70540-70543"]) } },
    { term := "ct scan", category := .procedure, synonyms := ["cat scan", "computed tomography"],
      codes := { cpt := some (["70450-70498"]) } },
    { term := "heart", category := .anatomy, synonyms := ["cardiac", "coronary"] },
    { term := "lung", category := .anatomy, synonyms := ["pulmonary", "respiratory"] },
    { term := "liver", category := .anatomy, synonyms := ["hepatic"] },
    { term := "kidney", category := .anatomy, synonyms := ["renal"] } ]

/-- `\b<term>\b` — the word-boundary wrapped lookup regex built for each
dictionary key and synonym (`new RegExp` with `escapeRegex`; the escaping is
immaterial here because terms are matched literally). -/
def wbTerm (t : String) : RE :=
  rseq [RE.wb, lits t, RE.wb]

/-- The dosage proximity pattern of `detectTerms`:
`\b(\d+(?:\.\d+)?)\s*(mg|g|ml|cc|mcg|units?|tablets?|pills?)\b` (flags `gi`). -/
def dosageProximityRE : RE :=
  rseq [RE.wb,
    RE.grp 1 (RE.seq (RE.clsPlus .digit)
      (RE.opt (RE.seq (RE.lit '.') (RE.clsPlus .digit)))),
    RE.clsStar .ws,
    RE.grp 2 (alts [lits ("mg"), lits ("g"), lits ("ml"), lits ("cc"), lits ("mcg"),
      RE.seq (lits ("unit")) (RE.opt (RE.lit 's')),
      RE.seq (lits ("tablet")) (RE.opt (RE.lit 's')),
      RE.seq (lits ("pill")) (RE.opt (RE.lit 's'))]),
    RE.wb]

/-- Build the `DetectedTerm` pushed for a dictionary hit (`{...term,
confidence, position, matchedText}`). -/
def mkHit (normalized : List Char) (term : MedicalTerm) (conf : ℚ)
    (m : MatchRes) : DetectedTerm :=
  { toMedicalTerm := term
    confidence := conf
    position := m.start
    matchedText := some (String.mk (matchedText normalized m)) }

/-- Dictionary scan step for one term: canonical key first (confidence 1.0),
then each synonym (confidence 0.9); each hit appends a `DetectedTerm`. -/
def pushTermMatches (normalized : List Char) (acc : List DetectedTerm)
    (term : MedicalTerm) : List DetectedTerm :=
  let acc' :=
    match exec (wbTerm term.term) normalized with
    | some m => acc ++ [mkHit normalized term 1 m]
    | none => acc
  term.synonyms.foldl (fun a syn =>
    match exec (wbTerm syn) normalized with
    | some m => a ++ [mkHit normalized term 0.9 m]
    | none => a) acc'

/-- The dosage proximity boost: the first detected medication term within 50
characters of the dosage match position gets `+0.1`, capped at `1.0`
(`detected.find` mutates the first hit). -/
def bumpNear (idx : Nat) : List DetectedTerm → List DetectedTerm
  | [] => []
  | t :: rest =>
      if t.category = Category.medication && ((t.position : Int) - (idx : Int)).natAbs < 50 then
        { t with confidence := min 1 (t.confidence + 0.1) } :: rest
      else
        t :: bumpNear idx rest

/-- `removeDuplicates` keeps, per `(term, position)` key, the
highest-confidence hit, in first-insertion order (a `Map` whose values are
overwritten in place). -/
def rdInsert : List ((String × Nat) × DetectedTerm) → DetectedTerm →
    List ((String × Nat) × DetectedTerm)
  | [], t => [((t.term, t.position), t)]
  | (k, e) :: rest, t =>
      if k = (t.term, t.position) then
        (if e.confidence < t.confidence then (k, t) else (k, e)) :: rest
      else
        (k, e) :: rdInsert rest t

/-- `MedicalTermDetector.removeDuplicates`. -/
def removeDuplicates (l : List DetectedTerm) : List DetectedTerm :=
  (l.foldl rdInsert []).map (fun p => p.2)

/-- `MedicalTermDetector.detectTerms`: scan the lowercased text for every
dictionary term and synonym, apply the dosage proximity boost, de-duplicate,
and sort by position (`Array.prototype.sort` is stable). -/
def detectTerms (text : String) : List DetectedTerm :=
  let normalized := text.data.map Char.toLower
  let detected := medicalDictionary.foldl (pushTermMatches normalized) []
  let detected := (execAll dosageProximityRE text.data).foldl
    (fun det m => bumpNear m.start det) detected
  (removeDuplicates detected).mergeSort (fun a b => a.position ≤ b.position)

/-! ## Detected actions (`ActionDetector`) -/

/-- Speaker role (`ActionContext['role']`). -/
inductive Role where
  | clinician
  | patient
deriving DecidableEq, Repr

/-- `ActionContext`. -/
structure ActionContext where
  conversationId : String
  utteranceId : String
  role : Role
deriving DecidableEq, Repr

/-- `DetectedAction['type']`. -/
inductive ActionType where
  | prescription
  | lab_order
  | referral
  | follow_up
  | diagnostic_test
deriving DecidableEq, Repr

/-- `PrescriptionDetails['medication']`. -/
structure MedicationDetails where
  name : String
  dosage : String
  frequency : String
  duration : String
  rxnormCode : Option String
deriving DecidableEq, Repr

/-- `LabOrderDetails['labTest']`. -/
structure LabTestDetails where
  name : String
  loincCode : Option String
  urgency : String
deriving DecidableEq, Repr

/-- `ReferralDetails['referral']`. -/
structure ReferralDetails where
  specialty : String
  reason : String
  urgency : String
deriving DecidableEq, Repr

/-- `FollowUpDetails['followUp']`. -/
structure FollowUpDetails where
  timeframe : String
  reason : String
deriving DecidableEq, Repr

/-- `DiagnosticTestDetails['test']`. -/
structure DiagnosticTestDetails where
  name : String
  type : String
  urgency : String
deriving DecidableEq, Repr

/-- The discriminated `ActionDetails` union, one variant per action type. -/
inductive ActionDetails where
  | prescription (medication : MedicationDetails)
  | labOrder (labTest : LabTestDetails)
  | referral (referral : ReferralDetails)
  | followUp (followUp : FollowUpDetails)
  | diagnosticTest (test : DiagnosticTestDetails)
deriving DecidableEq, Repr

/-- `DetectedAction`. -/
structure DetectedAction where
  type : ActionType
  details : ActionDetails
  confidence : ℚ
  utteranceText : String
  detectedTerms : Option (List String) := none
deriving DecidableEq, Repr

/-- First pattern of a list that matches, with its match (the source loops
over a pattern array and breaks on the first hit). -/
def firstExec : List RE → List Char → Option MatchRes
  | [], _ => none
  | p :: rest, s => (exec p s).orElse (fun _ => firstExec rest s)

/-- `\s+` -/
def sp1 : RE := RE.clsPlus .ws

/-- `\s*` -/
def sp0 : RE := RE.clsStar .ws

/-- `\w+` -/
def wd1 : RE := RE.clsPlus .word

/-- `\d+` -/
def dg1 : RE := RE.clsPlus .digit

/-- Prescription dosage pattern:
`(\d+(?:\.\d+)?)\s*(mg|milligrams?|g|grams?|ml|milliliters?|cc|mcg|micrograms?|units?)` -/
def prescriptionDosageRE : RE :=
  rseq [RE.grp 1 (RE.seq dg1 (RE.opt (RE.seq (RE.lit '.') dg1))),
    sp0,
    RE.grp 2 (alts [lits ("mg"),
      RE.seq (lits ("milligram")) (RE.opt (RE.lit 's')),
      lits ("g"),
      RE.seq (lits ("gram")) (RE.opt (RE.lit 's')),
      lits ("ml"),
      RE.seq (lits ("milliliter")) (RE.opt (RE.lit 's')),
      lits ("cc"), lits ("mcg"),
      RE.seq (lits ("microgram")) (RE.opt (RE.lit 's')),
      RE.seq (lits ("unit")) (RE.opt (RE.lit 's'))])]

/-- `frequencyPatterns`, in source order:
`(?:take\s+)?(?:it\s+)?(\w+)\s+(?:times?\s+)?(?:a|per)\s+day`,
`(?:every|q)\s*(\d+)\s*(?:hours?|hrs?)`,
`(?:twice|three times|four times)\s+(?:a\s+)?(?:day|daily)`,
`(?:bid|tid|qid|qd|prn)`. -/
def frequencyPatterns : List RE :=
  [ rseq [RE.opt (RE.seq (lits ("take")) sp1),
      RE.opt (RE.seq (lits ("it")) sp1),
      RE.grp 1 wd1, sp1,
      RE.opt (rseq [lits ("time"), RE.opt (RE.lit 's'), sp1]),
      RE.alt (RE.lit 'a') (lits ("per")), sp1, lits ("day")],
    rseq [RE.alt (lits ("every")) (RE.lit 'q'), sp0, RE.grp 1 dg1, sp0,
      RE.alt (RE.seq (lits ("hour")) (RE.opt (RE.lit 's')))
        (RE.seq (lits ("hr")) (RE.opt (RE.lit 's')))],
    rseq [alts [lits ("twice"), lits ("three times"), lits ("four times")], sp1,
      RE.opt (RE.seq (RE.lit 'a') sp1),
      RE.alt (lits ("day")) (lits ("daily"))],
    alts [lits ("bid"), lits ("tid"), lits ("qid"), lits ("qd"), lits ("prn")] ]

/-- Duration pattern: `for\s+(\d+)\s+(days?|weeks?|months?)` -/
def durationRE : RE :=
  rseq [lits ("for"), sp1, RE.grp 1 dg1, sp1,
    RE.grp 2 (alts [RE.seq (lits ("day")) (RE.opt (RE.lit 's')),
      RE.seq (lits ("week")) (RE.opt (RE.lit 's')),
      RE.seq (lits ("month")) (RE.opt (RE.lit 's'))])]

/-- Prescription keyword pattern: `prescribe|prescription|rx` -/
def prescribeKeywordRE : RE :=
  alts [lits ("prescribe"), lits ("prescription"), lits ("rx")]

/-- Conditional confidence increment: `if (<pattern matched>) confidence += v`. -/
def bonus (b : Bool) (v : ℚ) : ℚ :=
  if b then v else 0

/-- The matched text of an optional match, or the empty string
(`let dosage = ''; if (match) dosage = match[0]`). -/
def matchedOrEmpty (s : List Char) (m : Option MatchRes) : String :=
  match m with
  | some mm => String.mk (matchedText s mm)
  | none => ""

/-- `ActionDetector.detectPrescription`: requires a medication dictionary
hit, composes the confidence additively (dosage +0.3, frequency +0.2,
duration +0.2, prescribing keyword +0.3), rejects below 0.5, and boosts by
`medication.confidence * 0.3`, capped at 1.0. -/
def detectPrescription (utterance : String) (medicalTerms : List DetectedTerm) :
    Option DetectedAction :=
  let medicationTerms := medicalTerms.filter
    (fun t => decide (t.category = Category.medication))
  match medicationTerms with
  | [] => none
  | medication :: _ =>
    let s := utterance.data
    let dosageRes := exec prescriptionDosageRE s
    let dosage := matchedOrEmpty s dosageRes
    let conf1 : ℚ := bonus dosageRes.isSome 0.3
    let freqRes := firstExec frequencyPatterns s
    let frequency := matchedOrEmpty s freqRes
    let conf2 : ℚ := conf1 + bonus freqRes.isSome 0.2
    let durRes := exec durationRE s
    let duration := matchedOrEmpty s durRes
    let conf3 : ℚ := conf2 + bonus durRes.isSome 0.2
    let conf4 : ℚ := conf3 + bonus (test prescribeKeywordRE s) 0.3
    if conf4 < 0.5 then none
    else some
      { type := ActionType.prescription
        details := ActionDetails.prescription
          { name := medication.term
            dosage := dosage
            frequency := frequency
            duration := duration
            rxnormCode := medication.codes.rxnorm }
        confidence := min 1 (conf4 + medication.confidence * 0.3)
        utteranceText := utterance
        detectedTerms := some (medicationTerms.map (fun t => t.term)) }

/-- `labPatterns`, in source order:
`(?:order|need|get|run|check)\s+(?:a\s+)?(?:blood\s+)?(?:test|work|labs?)`,
`(?:blood|lab)\s+(?:test|work)`,
`check\s+(?:your\s+)?(\w+)\s+levels?`. -/
def labPatterns : List RE :=
  [ rseq [alts [lits ("order"), lits ("need"), lits ("get"), lits ("run"), lits ("check")],
      sp1, RE.opt (RE.seq (RE.lit 'a') sp1),
      RE.opt (RE.seq (lits ("blood")) sp1),
      alts [lits ("test"), lits ("work"), RE.seq (lits ("lab")) (RE.opt (RE.lit 's'))]],
    rseq [RE.alt (lits ("blood")) (lits ("lab")), sp1,
      RE.alt (lits ("test")) (lits ("work"))],
    rseq [lits ("check"), sp1, RE.opt (RE.seq (lits ("your")) sp1),
      RE.grp 1 wd1, sp1, lits ("level"), RE.opt (RE.lit 's')] ]

/-- Urgency pattern `stat|urgent|immediately|right away`. -/
def statRE : RE :=
  alts [lits ("stat"), lits ("urgent"), lits ("immediately"), lits ("right away")]

/-- Urgency pattern `soon|today`. -/
def soonRE : RE :=
  RE.alt (lits ("soon")) (lits ("today"))

/-- `ActionDetector.detectLabOrder`: emitted when an ordering phrase matches
or a lab-category term was detected; confidence 0.9 for a phrase match, 0.7
for a term-only match; falls back to the name `blood work` with no LOINC
code when no lab term was detected. -/
def detectLabOrder (utterance : String) (medicalTerms : List DetectedTerm) :
    Option DetectedAction :=
  let s := utterance.data
  let labTerms := medicalTerms.filter (fun t => decide (t.category = Category.lab))
  let hasLabPattern := labPatterns.any (fun p => test p s)
  if !hasLabPattern && labTerms.isEmpty then none
  else
    let urgency := if test statRE s then "stat"
      else if test soonRE s then "urgent"
      else "routine"
    some
      { type := ActionType.lab_order
        details := ActionDetails.labOrder
          { name := match labTerms with
              | [] => "blood work"
              | t :: _ => t.term
            loincCode := match labTerms with
              | [] => none
              | t :: _ => t.codes.loinc
            urgency := urgency }
        confidence := if hasLabPattern then 0.9 else 0.7
        utteranceText := utterance
        detectedTerms := some (labTerms.map (fun t => t.term)) }

/-- `followUpPatterns`, in source order:
`(?:come\s+back|follow\s*up|see\s+you|return|schedule)\s+(?:in\s+)?(\d+)\s+(days?|weeks?|months?)`,
`(?:come\s+back|follow\s*up|see\s+you|return)\s+(?:in\s+)?(?:a\s+)?(week|month|couple\s+of\s+weeks)`,
`(?:schedule|make)\s+(?:a\s+)?(?:follow\s*up|appointment)\s+(?:for|in)\s+(\d+)\s+(days?|weeks?|months?)`. -/
def followUpPatterns : List RE :=
  [ rseq [alts [RE.seq (lits ("come")) (RE.seq sp1 (lits ("back"))),
        RE.seq (lits ("follow")) (RE.seq sp0 (lits ("up"))),
        RE.seq (lits ("see")) (RE.seq sp1 (lits ("you"))),
        lits ("return"), lits ("schedule")],
      sp1, RE.opt (RE.seq (lits ("in")) sp1), RE.grp 1 dg1, sp1,
      RE.grp 2 (alts [RE.seq (lits ("day")) (RE.opt (RE.lit 's')),
        RE.seq (lits ("week")) (RE.opt (RE.lit 's')),
        RE.seq (lits ("month")) (RE.opt (RE.lit 's'))])],
    rseq [alts [RE.seq (lits ("come")) (RE.seq sp1 (lits ("back"))),
        RE.seq (lits ("follow")) (RE.seq sp0 (lits ("up"))),
        RE.seq (lits ("see")) (RE.seq sp1 (lits ("you"))),
        lits ("return")],
      sp1, RE.opt (RE.seq (lits ("in")) sp1), RE.opt (RE.seq (RE.lit 'a') sp1),
      RE.grp 1 (alts [lits ("week"), lits ("month"),
        rseq [lits ("couple"), sp1, lits ("of"), sp1, lits ("weeks")]])],
    rseq [RE.alt (lits ("schedule")) (lits ("make")),
      sp1, RE.opt (RE.seq (RE.lit 'a') sp1),
      RE.alt (RE.seq (lits ("follow")) (RE.seq sp0 (lits ("up")))) (lits ("appointment")),
      sp1, RE.alt (lits ("for")) (lits ("in")), sp1, RE.grp 1 dg1, sp1,
      RE.grp 2 (alts [RE.seq (lits ("day")) (RE.opt (RE.lit 's')),
        RE.seq (lits ("week")) (RE.opt (RE.lit 's')),
        RE.seq (lits ("month")) (RE.opt (RE.lit 's'))])] ]

/-- Timeframe cleanup pattern
`(?:come\s+back|follow\s*up|see\s+you|return|schedule)\s+` (first match
removed from the timeframe). -/
def followCleanupRE : RE :=
  rseq [alts [RE.seq (lits ("come")) (RE.seq sp1 (lits ("back"))),
      RE.seq (lits ("follow")) (RE.seq sp0 (lits ("up"))),
      RE.seq (lits ("see")) (RE.seq sp1 (lits ("you"))),
      lits ("return"), lits ("schedule")],
    sp1]

/-- Timeframe cleanup pattern `^(?:in|for)\s+`. -/
def inForRE : RE :=
  rseq [RE.bos, RE.alt (lits ("in")) (lits ("for")), sp1]

/-- `ActionDetector.detectFollowUp`: first matching follow-up pattern wins;
the timeframe is `match[0]` with the leading verb phrase and a leading
`in`/`for` stripped; fixed confidence 0.85. -/
def detectFollowUp (utterance : String) : Option DetectedAction :=
  let s := utterance.data
  match firstExec followUpPatterns s with
  | none => none
  | some m =>
    let tf0 := matchedText s m
    let tf1 := removeFirstMatch followCleanupRE tf0
    let tf2 := removeFirstMatch inForRE tf1
    some
      { type := ActionType.follow_up
        details := ActionDetails.followUp
          { timeframe := String.mk tf2, reason := "Check progress" }
        confidence := 0.85
        utteranceText := utterance }

/-- Whether `pre` is a prefix of `l` (character-exact). -/
def isPrefOf : List Char → List Char → Bool
  | [], _ => true
  | _ :: _, [] => false
  | a :: as, b :: bs => a = b && isPrefOf as bs

/-- JS `hay.includes(sub)`: substring containment. -/
def containsSub (hay sub : List Char) : Bool :=
  isPrefOf sub hay ||
    match hay with
    | [] => false
    | _ :: t => containsSub t sub

/-- `referralPatterns`, in source order:
`refer(?:ring)?\s+(?:you\s+)?to\s+(?:a\s+)?(\w+(?:\s+\w+)?)`,
`see\s+(?:a\s+)?(\w+(?:ologist|iatrist))`,
`(?:consult|consultation)\s+with\s+(?:a\s+)?(\w+(?:\s+\w+)?)`. -/
def referralPatterns : List RE :=
  [ rseq [lits ("refer"), RE.opt (lits ("ring")), sp1,
      RE.opt (RE.seq (lits ("you")) sp1), lits ("to"), sp1,
      RE.opt (RE.seq (RE.lit 'a') sp1),
      RE.grp 1 (RE.seq wd1 (RE.opt (RE.seq sp1 wd1)))],
    rseq [lits ("see"), sp1, RE.opt (RE.seq (RE.lit 'a') sp1),
      RE.grp 1 (RE.seq wd1 (RE.alt (lits ("ologist")) (lits ("iatrist"))))],
    rseq [RE.alt (lits ("consult")) (lits ("consultation")), sp1,
      lits ("with"), sp1, RE.opt (RE.seq (RE.lit 'a') sp1),
      RE.grp 1 (RE.seq wd1 (RE.opt (RE.seq sp1 wd1)))] ]

/-- The known specialty list of `detectReferral`. -/
def specialties : List String :=
  ["cardiologist", "dermatologist", "endocrinologist", "gastroenterologist",
   "neurologist", "oncologist", "orthopedist", "psychiatrist", "pulmonologist",
   "rheumatologist", "urologist", "nephrologist", "specialist"]

/-- Pattern `specialist|doctor`. -/
def specialistDoctorRE : RE :=
  RE.alt (lits ("specialist")) (lits ("doctor"))

/-- Pattern `urgent|soon|asap`. -/
def urgentSoonRE : RE :=
  alts [lits ("urgent"), lits ("soon"), lits ("asap")]

/-- The loop body of `detectReferral`: for each pattern in order, if it
matches, validate the captured specialty against the list (bidirectional
`includes`) or the `specialist|doctor` pattern; on success return the
action, otherwise continue with the next pattern. -/
def referralLoop (utterance : String) (s : List Char) : List RE → Option DetectedAction
  | [] => none
  | p :: rest =>
    match exec p s with
    | none => referralLoop utterance s rest
    | some m =>
      let specialty := (capture s m 1).getD []
      let specLower := specialty.map Char.toLower
      let isValidSpecialty := specialties.any
        (fun sp => containsSub specLower sp.data || containsSub sp.data specLower)
      if isValidSpecialty || test specialistDoctorRE specialty then
        some
          { type := ActionType.referral
            details := ActionDetails.referral
              { specialty := String.mk specialty
                reason := "Specialized care needed"
                urgency := if test urgentSoonRE s then "urgent" else "routine" }
            confidence := 0.8
            utteranceText := utterance }
      else
        referralLoop utterance s rest

/-- `ActionDetector.detectReferral`. -/
def detectReferral (utterance : String) : Option DetectedAction :=
  referralLoop utterance utterance.data referralPatterns

/-- `diagnosticPatterns`, in source order:
`(?:order|need|get|schedule)\s+(?:a|an)?\s*(\w+(?:\s+\w+)?)\s*(?:scan|test|imaging)`,
`(?:x-?ray|mri|ct\s*scan|ultrasound|echo(?:cardiogram)?)`. -/
def diagnosticPatterns : List RE :=
  [ rseq [alts [lits ("order"), lits ("need"), lits ("get"), lits ("schedule")],
      sp1, RE.opt (RE.alt (RE.lit 'a') (lits ("an"))), sp0,
      RE.grp 1 (RE.seq wd1 (RE.opt (RE.seq sp1 wd1))), sp0,
      alts [lits ("scan"), lits ("test"), lits ("imaging")]],
    alts [rseq [RE.lit 'x', RE.opt (RE.lit '-'), lits ("ray")],
      lits ("mri"),
      rseq [lits ("ct"), sp0, lits ("scan")],
      lits ("ultrasound"),
      RE.seq (lits ("echo")) (RE.opt (lits ("cardiogram")))] ]

/-- Pattern `stat|urgent|immediately` (diagnostic urgency). -/
def statUrgRE : RE :=
  alts [lits ("stat"), lits ("urgent"), lits ("immediately")]

/-- Classification patterns of `classifyDiagnosticTest`. -/
def xrayRadioRE : RE :=
  RE.alt (rseq [RE.lit 'x', RE.opt (RE.lit '-'), lits ("ray")]) (lits ("radiograph"))

/-- Pattern `mri|magnetic`. -/
def mriMagneticRE : RE :=
  RE.alt (lits ("mri")) (lits ("magnetic"))

/-- Pattern `ct|cat\s*scan|computed`. -/
def ctComputedRE : RE :=
  alts [lits ("ct"), rseq [lits ("cat"), sp0, lits ("scan")], lits ("computed")]

/-- Pattern `ultrasound|echo`. -/
def ultrasoundEchoRE : RE :=
  RE.alt (lits ("ultrasound")) (lits ("echo"))

/-- `ActionDetector.classifyDiagnosticTest`. -/
def classifyDiagnosticTest (testName : String) : String :=
  let normalized := testName.data.map Char.toLower
  if test xrayRadioRE normalized then "radiology"
  else if test mriMagneticRE normalized then "mri"
  else if test ctComputedRE normalized then "ct"
  else if test ultrasoundEchoRE normalized then "ultrasound"
  else "other"

/-- The pattern loop of `detectDiagnosticTest`: the first matching pattern
yields `match[1] || match[0]` as the test name. -/
def diagnosticNameLoop (s : List Char) : List RE → Option (List Char)
  | [] => none
  | p :: rest =>
    match exec p s with
    | none => diagnosticNameLoop s rest
    | some m =>
      match capture s m 1 with
      | some c => if c.isEmpty then some (matchedText s m) else some c
      | none => some (matchedText s m)

/-- `ActionDetector.detectDiagnosticTest`: a procedure-category term gives
confidence 0.8; otherwise the first matching generic pattern gives 0.7; no
name means no action. -/
def detectDiagnosticTest (utterance : String) (medicalTerms : List DetectedTerm) :
    Option DetectedAction :=
  let s := utterance.data
  let diagnosticTerms := medicalTerms.filter
    (fun t => decide (t.category = Category.procedure))
  let nameConf : String × ℚ :=
    match diagnosticTerms with
    | t :: _ => (t.term, 0.8)
    | [] =>
      match diagnosticNameLoop s diagnosticPatterns with
      | some n => (String.mk n, 0.7)
      | none => ("", 0)
  if nameConf.1 = "" then none
  else some
    { type := ActionType.diagnostic_test
      details := ActionDetails.diagnosticTest
        { name := nameConf.1
          type := classifyDiagnosticTest nameConf.1
          urgency := if test statUrgRE s then "urgent" else "routine" }
      confidence := nameConf.2
      utteranceText := utterance
      detectedTerms := some (diagnosticTerms.map (fun t => t.term)) }

/-- `ActionDetector.detectActions`: skips non-clinician utterances, then
runs the five matchers in order (prescription, lab order, follow-up,
referral, diagnostic test), appending each result. -/
def detectActions (utterance : String) (context : ActionContext) :
    List DetectedAction :=
  if context.role ≠ Role.clinician then []
  else
    let medicalTerms := detectTerms utterance
    (detectPrescription utterance medicalTerms).toList ++
    (detectLabOrder utterance medicalTerms).toList ++
    (detectFollowUp utterance).toList ++
    (detectReferral utterance).toList ++
    (detectDiagnosticTest utterance medicalTerms).toList

/-! ## Webhook retry queue (`WebhookQueue.processWebhook`)

The delivery attempt itself (`WebhookExecutor.executeWebhook`) is network
I/O; its outcome is abstracted as `succeeds : Nat → Bool` (whether attempt
`n` returns `success: true`) and `errorOf : Nat → String` (the error string
of a failed attempt `n`).  `processWebhook` mirrors the source recursion:
on success, record status `sent` and stop; at `attempt >= maxRetries`,
record status `failed` with the last error and stop; otherwise schedule a
retry after `baseDelay * 2 ^ (attempt - 1)` milliseconds. -/

/-- Terminal webhook status written by `updateActionWebhookStatus`. -/
inductive WebhookStatus where
  | sent
  | failed
deriving DecidableEq, Repr

/-- The status update recorded for the action at the end of processing. -/
structure WebhookUpdate where
  status : WebhookStatus
  attempts : Nat
  error : Option String
deriving DecidableEq, Repr

/-- Observable trace of one `processWebhook` call chain: the attempt numbers
executed, the backoff delays scheduled between them (ms), and the terminal
status update. -/
structure WebhookRun where
  attemptsMade : List Nat
  delays : List Nat
  finalUpdate : WebhookUpdate
deriving DecidableEq, Repr

/-- `WebhookQueue.maxRetries`. -/
def maxRetries : Nat := 3

/-- `WebhookQueue.baseDelay` (2000 ms). -/
def baseDelay : Nat := 2000

/-- `WebhookQueue.processWebhook` with the attempt outcomes abstracted. -/
def processWebhook (succeeds : Nat → Bool) (errorOf : Nat → String)
    (mr base : Nat) (attempt : Nat) : WebhookRun :=
  if succeeds attempt then
    { attemptsMade := [attempt], delays := [],
      finalUpdate := { status := .sent, attempts := attempt, error := none } }
  else if mr ≤ attempt then
    { attemptsMade := [attempt], delays := [],
      finalUpdate := { status := .failed, attempts := attempt,
                       error := some (errorOf attempt) } }
  else
    let rest := processWebhook succeeds errorOf mr base (attempt + 1)
    { attemptsMade := attempt :: rest.attemptsMade,
      delays := base * 2 ^ (attempt - 1) :: rest.delays,
      finalUpdate := rest.finalUpdate }
termination_by mr - attempt
decreasing_by omega

/-! ## Client-side translation correlation
(`VoiceChat` translation handler + `conversationSlice`) -/

/-- `conversationSlice` `Utterance`. -/
structure Utterance where
  id : String
  role : Role
  originalText : String
  translatedText : Option String := none
  timestamp : String
  language : String
  sequenceNumber : Nat
deriving DecidableEq, Repr

/-- Reducer `addUtterance`: appends with a fresh generated id and
`sequenceNumber = utterances.length + 1`. -/
def addUtterance (utts : List Utterance) (freshId : String) (role : Role)
    (originalText timestamp language : String) : List Utterance :=
  utts ++ [{ id := freshId, role := role, originalText := originalText,
             translatedText := none, timestamp := timestamp,
             language := language, sequenceNumber := utts.length + 1 }]

/-- Reducer `updateUtteranceTranslation`: sets `translatedText` on the first
utterance whose id matches (`Array.prototype.find`); no-op when absent. -/
def updateUtteranceTranslation (utts : List Utterance) (id text : String) :
    List Utterance :=
  match utts with
  | [] => []
  | u :: rest =>
    if u.id = id then { u with translatedText := some text } :: rest
    else u :: updateUtteranceTranslation rest id text

/-- The `VoiceChat` handler for the `translation` event: if the utterance
list is nonempty and its last element has no translation, dispatch
`updateUtteranceTranslation` for that element's id; otherwise do nothing. -/
def handleTranslation (utts : List Utterance) (translatedText : String) :
    List Utterance :=
  match utts.getLast? with
  | none => utts
  | some lastUtterance =>
    if lastUtterance.translatedText = none then
      updateUtteranceTranslation utts lastUtterance.id translatedText
    else utts

/-- Modelled from the spec (for comparison with `handleTranslation`): attach
the translation to the most recently created utterance that has no
translation yet; if none exists, drop it. -/
def attachMostRecentUntranslated : List Utterance → String → List Utterance
  | [], _ => []
  | u :: rest, text =>
    if rest.any (fun v => v.translatedText.isNone) then
      u :: attachMostRecentUntranslated rest text
    else if u.translatedText = none then
      { u with translatedText := some text } :: rest
    else
      u :: rest

/-! ## Matcher failure propagation in `ActionDetector.detectActions`

`detectActions` runs the five matchers sequentially with no try/catch
around any of them; a matcher that throws therefore aborts the whole call.
The control flow is modelled with each matcher's outcome as an
`Except`: `.error e` for a throw, `.ok r` for a normal return. -/

/-- Sequencing of matcher outcomes exactly as `detectActions` runs them:
results accumulate in order, and a throw anywhere propagates out of the
whole call, discarding every result. -/
def runMatchersSeq :
    List (Except String (Option DetectedAction)) →
    Except String (List DetectedAction)
  | [] => .ok []
  | m :: rest =>
    match m with
    | .error e => .error e
    | .ok none => runMatchersSeq rest
    | .ok (some a) =>
      match runMatchersSeq rest with
      | .error e => .error e
      | .ok l => .ok (a :: l)

/-! ## Concrete fixtures used by the scenario theorems -/

/-- A clinician action context. -/
def clinCtx : ActionContext :=
  { conversationId := "conv-1", utteranceId := "utt-1", role := Role.clinician }

/-- A patient action context. -/
def patientCtx : ActionContext :=
  { conversationId := "conv-1", utteranceId := "utt-1", role := Role.patient }

/-- Two utterances created back to back, neither translated yet
(runs the `addUtterance` reducer twice from the initial empty state). -/
def twoUttState : List Utterance :=
  addUtterance
    (addUtterance [] "utt-a" Role.clinician "hello" "t0" "en")
    "utt-b" Role.clinician "how are you" "t1" "en"

/-- The state after the first translation event has been handled on
`twoUttState`. -/
def afterFirstTranslation : List Utterance :=
  handleTranslation twoUttState "hola"

/-- The first utterance of `twoUttState`, written out. -/
def uttA : Utterance :=
  { id := "utt-a", role := Role.clinician, originalText := "hello",
    translatedText := none, timestamp := "t0", language := "en",
    sequenceNumber := 1 }

/-- The second utterance of `twoUttState`, written out. -/
def uttB : Utterance :=
  { id := "utt-b", role := Role.clinician, originalText := "how are you",
    translatedText := none, timestamp := "t1", language := "en",
    sequenceNumber := 2 }

/-- A concrete follow-up action for exercising the matcher sequencing. -/
def sampleFollowUp : DetectedAction :=
  { type := ActionType.follow_up
    details := ActionDetails.followUp
      { timeframe := "2 weeks", reason := "Check progress" }
    confidence := 0.85
    utteranceText := "Follow up in 2 weeks" }

/-- A concrete lab-order action for exercising the matcher sequencing. -/
def sampleLabOrder : DetectedAction :=
  { type := ActionType.lab_order
    details := ActionDetails.labOrder
      { name := "blood work", loincCode := none, urgency := "routine" }
    confidence := 0.9
    utteranceText := "order a blood test"
    detectedTerms := some ([]) }

/-- The single action detected on the clinician utterance
`rx tylenol 5 mg`: dosage +0.3 and the `rx` keyword +0.3 reach the
threshold, and the term boost gives confidence 0.9. -/
def rxTylenolAction : DetectedAction :=
  { type := ActionType.prescription
    details := ActionDetails.prescription
      { name := "tylenol", dosage := "5 mg", frequency := "", duration := ""
        rxnormCode := some ("161") }
    confidence := 0.9
    utteranceText := "rx tylenol 5 mg"
    detectedTerms := some (["tylenol"]) }

end TranslationAssistant

namespace TranslationAssistant

/-! ## Claim theorems -/

/-- C1: for every utterance text and every speaker role other than
clinician, `ActionDetector.detectActions` returns the empty list — a
non-clinician utterance never yields a `DetectedAction`, regardless of its
text. -/
theorem claim1_nonclinician_no_actions (utterance : String)
    (context : ActionContext) (h : context.role ≠ Role.clinician) :
    detectActions utterance context = [] := by
  unfold detectActions
  rw [if_pos h]

/-- Witness for C1 at the concrete Scenario B input. -/
theorem claim1_witness :
    patientCtx.role ≠ Role.clinician ∧
      detectActions "Me duele la cabeza" patientCtx = [] :=
  ⟨by decide, claim1_nonclinician_no_actions "Me duele la cabeza" patientCtx (by decide)⟩

/-- C6 (code evaluated at the failing input): on the clinician utterance
`"Follow up in two weeks"` the detector returns no action at all — every
follow-up pattern requires a numeric timeframe (`\d+`) or the literal
`a week`/`a month`, so the spelled-out `two weeks` matches nothing, although
the repository test guide lists this phrase as a follow-up trigger. -/
theorem claim6_code_returns_no_action :
    detectActions "Follow up in two weeks" clinCtx = [] := by
  with_unfolding_all decide

/-- C7: the clinician utterance
`"I'm prescribing ibuprofen 400 milligrams three times daily"` yields
exactly one action: a prescription for `ibuprofen` (dosage +0.3 and
frequency +0.2 reach the 0.5 threshold; the term boost lifts the confidence
to 0.8 ≥ 0.5). -/
theorem claim7_scenarioA_prescription :
    detectActions "I\x27m prescribing ibuprofen 400 milligrams three times daily"
        clinCtx =
      [{ type := ActionType.prescription
         details := ActionDetails.prescription
           { name := "ibuprofen"
             dosage := "400 milligrams"
             frequency := "three times daily"
             duration := ""
             rxnormCode := some ("5640") }
         confidence := 0.8
         utteranceText := "I\x27m prescribing ibuprofen 400 milligrams three times daily"
         detectedTerms := some (["ibuprofen"]) }] ∧
      (0.5 : ℚ) ≤ 0.8 := by
  constructor
  · with_unfolding_all decide
  · norm_num

/-- Counterexample to C5 as stated: on
`"I'm ordering a complete blood count"` the single emitted lab_order has
confidence 0.7, not 0.9 — no lab ordering phrase matches, because the
pattern `(?:order|need|get|run|check)\s+…` requires whitespace after
`order` and the utterance has the gerund `ordering`. -/
theorem claim5_scenarioC_confidence_cex :
    detectActions "I\x27m ordering a complete blood count" clinCtx =
      [{ type := ActionType.lab_order
         details := ActionDetails.labOrder
           { name := "cbc"
             loincCode := some ("58410-2")
             urgency := "routine" }
         confidence := 0.7
         utteranceText := "I\x27m ordering a complete blood count"
         detectedTerms := some (["cbc", "cbc"]) }] ∧
      (0.7 : ℚ) ≠ 0.9 := by
  constructor
  · with_unfolding_all decide
  · norm_num

/-- C5 amended: `"I'm ordering a complete blood count"` yields exactly one
lab_order with confidence 0.7 (only the `complete blood count` term
matched; the ordering-phrase pattern does not match the gerund `ordering`);
in general a lab_order's confidence is 0.9 when an explicit ordering phrase
matched and 0.7 otherwise (term-only match). -/
theorem claim5_amended_lab_order_confidence :
    (detectActions "I\x27m ordering a complete blood count" clinCtx =
      [{ type := ActionType.lab_order
         details := ActionDetails.labOrder
           { name := "cbc"
             loincCode := some ("58410-2")
             urgency := "routine" }
         confidence := 0.7
         utteranceText := "I\x27m ordering a complete blood count"
         detectedTerms := some (["cbc", "cbc"]) }]) ∧
    (∀ (u : String) (terms : List DetectedTerm) (a : DetectedAction),
      detectLabOrder u terms = some a →
      a.confidence =
        if labPatterns.any (fun p => test p u.data) then (0.9 : ℚ) else 0.7) := by
  constructor
  · with_unfolding_all decide
  · intro u terms a h
    simp only [detectLabOrder] at h
    split at h
    · simp at h
    · cases h
      rfl

/-- Witness for the hypothesis of C5's amended theorem at a concrete input
whose ordering phrase matches. -/
theorem claim5_amended_witness :
    (detectLabOrder "order a blood test" [] =
      some
        { type := ActionType.lab_order
          details := ActionDetails.labOrder
            { name := "blood work", loincCode := none, urgency := "routine" }
          confidence := 0.9
          utteranceText := "order a blood test"
          detectedTerms := some ([]) }) ∧
    ({ type := ActionType.lab_order
       details := ActionDetails.labOrder
         { name := "blood work", loincCode := none, urgency := "routine" }
       confidence := 0.9
       utteranceText := "order a blood test"
       detectedTerms := some ([]) } : DetectedAction).confidence =
      if labPatterns.any (fun p => test p ("order a blood test").data)
      then (0.9 : ℚ) else 0.7 :=
  ⟨by with_unfolding_all decide,
   claim5_amended_lab_order_confidence.2 "order a blood test" [] _
     (by with_unfolding_all decide)⟩

/-- Helper for C10: with a matching lab pattern and no lab-category term,
`detectLabOrder` emits the fallback action with name `blood work`, no LOINC
code, and confidence 0.9. -/
theorem detectLabOrder_fallback_eq (u : String)
    (hpat : labPatterns.any (fun p => test p u.data) = true)
    (hterms : (detectTerms u).filter (fun t => decide (t.category = Category.lab)) = []) :
    detectLabOrder u (detectTerms u) =
      some
        { type := ActionType.lab_order
          details := ActionDetails.labOrder
            { name := "blood work"
              loincCode := none
              urgency := if test statRE u.data then "stat"
                else if test soonRE u.data then "urgent" else "routine" }
          confidence := 0.9
          utteranceText := u
          detectedTerms := some ([]) } := by
  simp only [detectLabOrder, hterms, hpat]
  simp

/-- C10: for every clinician utterance for which a lab-ordering phrase
matches but no lab-category term is detected, the emitted lab_order action
carries the constant name `blood work` and no LOINC code. -/
theorem claim10_lab_order_fallback (u : String) (ctx : ActionContext)
    (hrole : ctx.role = Role.clinician)
    (hpat : labPatterns.any (fun p => test p u.data) = true)
    (hterms : (detectTerms u).filter (fun t => decide (t.category = Category.lab)) = []) :
    ∃ a ∈ detectActions u ctx,
      a.type = ActionType.lab_order ∧
      ∃ lt, a.details = ActionDetails.labOrder lt ∧
        lt.name = "blood work" ∧ lt.loincCode = none := by
  refine
    ⟨{ type := ActionType.lab_order
       details := ActionDetails.labOrder
         { name := "blood work"
           loincCode := none
           urgency := if test statRE u.data then "stat"
             else if test soonRE u.data then "urgent" else "routine" }
       confidence := 0.9
       utteranceText := u
       detectedTerms := some ([]) }, ?_, rfl, ⟨_, rfl, rfl, rfl⟩⟩
  simp only [detectActions]
  rw [if_neg (by simp [hrole])]
  rw [detectLabOrder_fallback_eq u hpat hterms]
  simp

/-- Witness for C10 at the concrete input `order a blood test`. -/
theorem claim10_witness :
    ∃ a ∈ detectActions "order a blood test" clinCtx,
      a.type = ActionType.lab_order ∧
      ∃ lt, a.details = ActionDetails.labOrder lt ∧
        lt.name = "blood work" ∧ lt.loincCode = none :=
  claim10_lab_order_fallback "order a blood test" clinCtx rfl (by decide)
    (by with_unfolding_all decide)

/-- Helper for C3: updating by the last element's id rewrites exactly that
element when no earlier utterance shares the id. -/
theorem updateUtteranceTranslation_concat (l : List Utterance) (u : Utterance)
    (t : String) (h : ∀ v ∈ l, v.id ≠ u.id) :
    updateUtteranceTranslation (l ++ [u]) u.id t =
      l ++ [{ u with translatedText := some t }] := by
  induction l with
  | nil => simp [updateUtteranceTranslation]
  | cons v l ih =>
    simp only [List.cons_append, updateUtteranceTranslation]
    rw [if_neg (h v (List.mem_cons_self v l))]
    rw [List.append_eq, ih (fun w hw => h w (List.mem_cons_of_mem v hw))]

/-- Counterexample to C3 as stated: start from two untranslated utterances
(`twoUttState`, built by running the `addUtterance` reducer twice), handle a
first translation (it lands on the second utterance), then handle a second
translation.  The first utterance is now the most recently created
untranslated utterance, yet the handler drops the translation: the state is
unchanged, unlike the spec-modelled `attachMostRecentUntranslated`. -/
theorem claim3_translation_drop_cex :
    afterFirstTranslation.map (fun u => u.translatedText) = [none, some ("hola")] ∧
    handleTranslation afterFirstTranslation "mundo" = afterFirstTranslation ∧
    attachMostRecentUntranslated afterFirstTranslation "mundo" ≠ afterFirstTranslation := by
  exact ⟨by decide, by decide, by decide⟩

/-- C3 amended: on `TranslationProduced` the translation is attached to the
most recently created utterance only when that last utterance has no
translation yet (and to no other utterance, given distinct ids); otherwise —
including when an older utterance is still untranslated, and when no
utterance exists — the translation is dropped without error.  Scenario F
(two untranslated utterances, one translation lands only on the most recent)
is the `translatedText = none` case. -/
theorem claim3_amended_last_slot_only (l : List Utterance) (u : Utterance)
    (t : String) (hnodup : ((l ++ [u]).map (fun v => v.id)).Nodup) :
    handleTranslation (l ++ [u]) t =
      if u.translatedText = none then l ++ [{ u with translatedText := some t }]
      else l ++ [u] := by
  have hne : ∀ v ∈ l, v.id ≠ u.id := by
    rw [List.map_append] at hnodup
    have hdisj := (List.nodup_append.mp hnodup).2.2
    intro v hv heq
    exact hdisj (List.mem_map_of_mem _ hv) (by simp [heq])
  have hstep : handleTranslation (l ++ [u]) t =
      if u.translatedText = none then
        updateUtteranceTranslation (l ++ [u]) u.id t
      else l ++ [u] := by
    unfold handleTranslation
    rw [List.getLast?_concat]
  rw [hstep]
  by_cases hu : u.translatedText = none
  · rw [if_pos hu, if_pos hu, updateUtteranceTranslation_concat l u t hne]
  · rw [if_neg hu, if_neg hu]

/-- Witness for C3's amended theorem: Scenario F on two concrete
untranslated utterances. -/
theorem claim3_amended_witness :
    (([uttA] ++ [uttB]).map (fun v => v.id)).Nodup ∧
    handleTranslation ([uttA] ++ [uttB]) "hola" =
      [uttA] ++ [{ uttB with translatedText := some ("hola") }] := by
  refine ⟨by decide, ?_⟩
  rw [claim3_amended_last_slot_only [uttA] uttB "hola" (by decide)]
  decide

/-- Counterexample to C4 as stated: first matcher succeeds, second throws,
third succeeds — the sequencing returns the thrown error, so the other
matchers' results are not returned and the call as a whole fails. -/
theorem claim4_no_isolation_cex :
    runMatchersSeq
        [Except.ok (some sampleFollowUp), Except.error "matcher threw",
         Except.ok (some sampleLabOrder)] =
      Except.error "matcher threw" := rfl

/-- C4 amended: matcher failures are not isolated — `detectActions` has no
try/catch around the matchers, so if any matcher throws, the whole call
fails with a thrown error and returns no results at all. -/
theorem claim4_amended_throw_propagates
    (ms : List (Except String (Option DetectedAction))) (e : String)
    (h : Except.error e ∈ ms) :
    ∃ e2, runMatchersSeq ms = Except.error e2 := by
  induction ms with
  | nil => cases h
  | cons m rest ih =>
    rcases List.mem_cons.mp h with h1 | h2
    · exact ⟨e, by rw [← h1]; rfl⟩
    · cases m with
      | error e3 => exact ⟨e3, rfl⟩
      | ok o =>
        obtain ⟨e2, he2⟩ := ih h2
        cases o with
        | none => exact ⟨e2, by simpa [runMatchersSeq] using he2⟩
        | some a => exact ⟨e2, by simp [runMatchersSeq, he2]⟩

/-- Witness for C4's amended theorem on a concrete matcher outcome list. -/
theorem claim4_amended_witness :
    ∃ e2,
      runMatchersSeq [Except.ok (some sampleFollowUp), Except.error "boom"] =
        Except.error e2 :=
  claim4_amended_throw_propagates
    [Except.ok (some sampleFollowUp), Except.error "boom"] "boom" (by simp)

/-- Counterexample to C8's delay list: with every attempt failing (an
unreachable URL), the three attempts are separated by exactly two scheduled
delays — 2s before attempt 2 and 4s before attempt 3; no 8s delay is ever
scheduled, because the third attempt is final. -/
theorem claim8_three_delays_cex :
    (processWebhook (fun _ => false) (fun _ => "connect ECONNREFUSED")
        maxRetries baseDelay 1).delays = [2000, 4000] ∧
    (8000 : Nat) ∉
      (processWebhook (fun _ => false) (fun _ => "connect ECONNREFUSED")
        maxRetries baseDelay 1).delays := by
  have h : processWebhook (fun _ => false) (fun _ => "connect ECONNREFUSED")
      maxRetries baseDelay 1 =
      { attemptsMade := [1, 2, 3], delays := [2000, 4000],
        finalUpdate := { status := WebhookStatus.failed, attempts := 3,
                         error := some ("connect ECONNREFUSED") } } := by
    simp [processWebhook, maxRetries, baseDelay]
  rw [h]
  exact ⟨rfl, by simp⟩

/-- C8 amended: every delivery makes at most 3 attempts and the delay
scheduled before attempt `n+1` is `base * 2^(n-1)`: the scheduled-delay
list always equals `[baseDelay * 2^0, baseDelay * 2^1, ...]` (2s then 4s);
an unreachable URL exhausts the 3 attempts with exactly those two delays —
an 8s delay never occurs. -/
theorem claim8_amended_backoff (succeeds : Nat → Bool) (errorOf : Nat → String) :
    (processWebhook succeeds errorOf maxRetries baseDelay 1).attemptsMade.length ≤ 3 ∧
    (processWebhook succeeds errorOf maxRetries baseDelay 1).delays =
      (List.range
        (processWebhook succeeds errorOf maxRetries baseDelay 1).delays.length).map
        (fun i => baseDelay * 2 ^ i) ∧
    ((∀ n, succeeds n = false) →
      (processWebhook succeeds errorOf maxRetries baseDelay 1).attemptsMade = [1, 2, 3] ∧
      (processWebhook succeeds errorOf maxRetries baseDelay 1).delays = [2000, 4000]) := by
  cases h1 : succeeds 1 with
  | true =>
    have hr : processWebhook succeeds errorOf maxRetries baseDelay 1 =
        { attemptsMade := [1], delays := [],
          finalUpdate := { status := WebhookStatus.sent, attempts := 1, error := none } } := by
      simp [processWebhook, h1]
    refine ⟨by rw [hr]; decide, by rw [hr]; decide, ?_⟩
    intro hall
    rw [hall 1] at h1
    cases h1
  | false =>
    cases h2 : succeeds 2 with
    | true =>
      have hr : processWebhook succeeds errorOf maxRetries baseDelay 1 =
          { attemptsMade := [1, 2], delays := [2000],
            finalUpdate := { status := WebhookStatus.sent, attempts := 2, error := none } } := by
        simp [processWebhook, h1, h2, maxRetries, baseDelay]
      refine ⟨by rw [hr]; decide, by rw [hr]; decide, ?_⟩
      intro hall
      rw [hall 2] at h2
      cases h2
    | false =>
      cases h3 : succeeds 3 with
      | true =>
        have hr : processWebhook succeeds errorOf maxRetries baseDelay 1 =
            { attemptsMade := [1, 2, 3], delays := [2000, 4000],
              finalUpdate := { status := WebhookStatus.sent, attempts := 3, error := none } } := by
          simp [processWebhook, h1, h2, h3, maxRetries, baseDelay]
        refine ⟨by rw [hr]; decide, by rw [hr]; decide, ?_⟩
        intro hall
        rw [hall 3] at h3
        cases h3
      | false =>
        have hr : processWebhook succeeds errorOf maxRetries baseDelay 1 =
            { attemptsMade := [1, 2, 3], delays := [2000, 4000],
              finalUpdate := { status := WebhookStatus.failed, attempts := 3,
                               error := some (errorOf 3) } } := by
          simp [processWebhook, h1, h2, h3, maxRetries, baseDelay]
        refine ⟨by rw [hr]; simp,
          by rw [hr]; simp [List.range_succ, baseDelay], ?_⟩
        intro _
        rw [hr]
        exact ⟨rfl, rfl⟩

/-- Witness for C8's amended theorem with every attempt failing. -/
theorem claim8_amended_witness :
    (processWebhook (fun _ => false) (fun _ => "connect ECONNREFUSED")
        maxRetries baseDelay 1).attemptsMade = [1, 2, 3] ∧
    (processWebhook (fun _ => false) (fun _ => "connect ECONNREFUSED")
        maxRetries baseDelay 1).delays = [2000, 4000] :=
  (claim8_amended_backoff (fun _ => false) (fun _ => "connect ECONNREFUSED")).2.2
    (fun _ => rfl)

/-- C9: when every delivery attempt fails, exactly 3 attempts are made, the
action's webhook status is set to `failed` with the last error recorded and
no further attempt is scheduled; when an attempt succeeds, the status is
immediately set to `sent` and no retry is scheduled after it. -/
theorem claim9_terminal_status (succeeds : Nat → Bool) (errorOf : Nat → String) :
    ((∀ n, succeeds n = false) →
      processWebhook succeeds errorOf maxRetries baseDelay 1 =
        { attemptsMade := [1, 2, 3], delays := [2000, 4000],
          finalUpdate := { status := WebhookStatus.failed, attempts := 3,
                           error := some (errorOf 3) } }) ∧
    (∀ a, succeeds a = true →
      processWebhook succeeds errorOf maxRetries baseDelay a =
        { attemptsMade := [a], delays := [],
          finalUpdate := { status := WebhookStatus.sent, attempts := a,
                           error := none } }) := by
  constructor
  · intro hall
    simp [processWebhook, hall, maxRetries, baseDelay]
  · intro a ha
    rw [processWebhook]
    simp [ha]

/-- Witness for C9 in both the all-fail and the immediate-success case. -/
theorem claim9_witness :
    (processWebhook (fun _ => false) (fun _ => "timeout after 30000ms")
        maxRetries baseDelay 1).finalUpdate =
      { status := WebhookStatus.failed, attempts := 3,
        error := some ("timeout after 30000ms") } ∧
    (processWebhook (fun _ => true) (fun _ => "timeout after 30000ms")
        maxRetries baseDelay 1).finalUpdate =
      { status := WebhookStatus.sent, attempts := 1, error := none } :=
  ⟨by rw [(claim9_terminal_status (fun _ => false) (fun _ => "timeout after 30000ms")).1
        (fun _ => rfl)],
   by rw [(claim9_terminal_status (fun _ => true) (fun _ => "timeout after 30000ms")).2
        1 rfl]⟩

/-- Helper: a conditional confidence increment is non-negative. -/
theorem bonus_nonneg (b : Bool) (v : ℚ) (hv : 0 ≤ v) : 0 ≤ bonus b v := by
  unfold bonus
  split
  · exact hv
  · exact le_refl 0

/-- Helper: a left fold preserves an invariant that every step preserves. -/
theorem foldl_preserves {α β : Type} (P : β → Prop) (Q : α → Prop)
    (f : List β → α → List β)
    (hf : ∀ acc a x, Q a → (∀ y ∈ acc, P y) → x ∈ f acc a → P x) :
    ∀ (l : List α), (∀ a ∈ l, Q a) → ∀ acc, (∀ y ∈ acc, P y) →
      ∀ x ∈ l.foldl f acc, P x := by
  intro l
  induction l with
  | nil => intro _ acc hacc x hx; exact hacc x hx
  | cons a l ih =>
    intro hq acc hacc x hx
    exact ih (fun b hb => hq b (List.mem_cons_of_mem a hb)) (f acc a)
      (fun y hy => hf acc a y (hq a (List.mem_cons_self a l)) hacc hy) x hx

/-- Helper: the confidence stored in a dictionary hit is the one passed. -/
theorem mkHit_confidence (n : List Char) (term : MedicalTerm) (c : ℚ)
    (m : MatchRes) : (mkHit n term c m).confidence = c := rfl

/-- Helper: the dictionary scan yields only confidences in [0, 1]
(canonical hits 1.0, synonym hits 0.9). -/
theorem pushTermMatches_bounds (n : List Char) (acc : List DetectedTerm)
    (term : MedicalTerm)
    (hacc : ∀ y ∈ acc, 0 ≤ y.confidence ∧ y.confidence ≤ 1) :
    ∀ x ∈ pushTermMatches n acc term, 0 ≤ x.confidence ∧ x.confidence ≤ 1 := by
  have hstep : ∀ (a : List DetectedTerm) (syn : String) x, True →
      (∀ y ∈ a, 0 ≤ y.confidence ∧ y.confidence ≤ 1) →
      x ∈ (match exec (wbTerm syn) n with
           | some m => a ++ [mkHit n term 0.9 m]
           | none => a) → 0 ≤ x.confidence ∧ x.confidence ≤ 1 := by
    intro a syn x _ ha hx
    cases hexec : exec (wbTerm syn) n with
    | none => rw [hexec] at hx; exact ha x hx
    | some m =>
      rw [hexec] at hx
      rcases List.mem_append.mp hx with hx | hx
      · exact ha x hx
      · obtain rfl := List.mem_singleton.mp hx
        constructor
        · norm_num [mkHit_confidence]
        · norm_num [mkHit_confidence]
  have hacc2 : ∀ y ∈ (match exec (wbTerm term.term) n with
      | some m => acc ++ [mkHit n term 1 m]
      | none => acc), 0 ≤ y.confidence ∧ y.confidence ≤ 1 := by
    cases hexec : exec (wbTerm term.term) n with
    | none => exact hacc
    | some m =>
      intro y hy
      rcases List.mem_append.mp hy with hy | hy
      · exact hacc y hy
      · obtain rfl := List.mem_singleton.mp hy
        constructor
        · norm_num [mkHit_confidence]
        · norm_num [mkHit_confidence]
  exact foldl_preserves _ (fun _ => True) _ hstep term.synonyms
    (fun _ _ => trivial) _ hacc2

/-- Helper: the dosage proximity boost keeps confidences in [0, 1]
(`Math.min(1.0, confidence + 0.1)`). -/
theorem bumpNear_bounds (idx : Nat) (l : List DetectedTerm)
    (hl : ∀ y ∈ l, 0 ≤ y.confidence ∧ y.confidence ≤ 1) :
    ∀ x ∈ bumpNear idx l, 0 ≤ x.confidence ∧ x.confidence ≤ 1 := by
  induction l with
  | nil => intro x hx; exact absurd hx (by simp [bumpNear])
  | cons t rest ih =>
    intro x hx
    have ht := hl t (List.mem_cons_self t rest)
    rw [bumpNear] at hx
    split at hx
    · rcases List.mem_cons.mp hx with rfl | hx
      · constructor
        · show (0:ℚ) ≤ min 1 (t.confidence + 0.1)
          exact le_min (by norm_num) (add_nonneg ht.1 (by norm_num))
        · show min 1 (t.confidence + (0.1:ℚ)) ≤ 1
          exact min_le_left _ _
      · exact hl x (List.mem_cons_of_mem t hx)
    · rcases List.mem_cons.mp hx with rfl | hx
      · exact ht
      · exact ih (fun y hy => hl y (List.mem_cons_of_mem t hy)) x hx

/-- Helper: de-duplication keeps only values that were inserted. -/
theorem rdInsert_bounds (seen : List ((String × Nat) × DetectedTerm))
    (t : DetectedTerm)
    (hseen : ∀ p ∈ seen, 0 ≤ p.2.confidence ∧ p.2.confidence ≤ 1)
    (ht : 0 ≤ t.confidence ∧ t.confidence ≤ 1) :
    ∀ p ∈ rdInsert seen t, 0 ≤ p.2.confidence ∧ p.2.confidence ≤ 1 := by
  induction seen with
  | nil =>
    intro p hp
    obtain rfl := List.mem_singleton.mp hp
    exact ht
  | cons e rest ih =>
    obtain ⟨k, v⟩ := e
    intro p hp
    rw [rdInsert] at hp
    split at hp
    · rcases List.mem_cons.mp hp with rfl | hp
      · split
        · exact ht
        · exact hseen (k, v) (List.mem_cons_self _ _)
      · exact hseen p (List.mem_cons_of_mem _ hp)
    · rcases List.mem_cons.mp hp with rfl | hp
      · exact hseen (k, v) (List.mem_cons_self _ _)
      · exact ih (fun q hq => hseen q (List.mem_cons_of_mem _ hq)) p hp

/-- Helper: `removeDuplicates` keeps confidences within the input bounds. -/
theorem removeDuplicates_bounds (l : List DetectedTerm)
    (hl : ∀ y ∈ l, 0 ≤ y.confidence ∧ y.confidence ≤ 1) :
    ∀ x ∈ removeDuplicates l, 0 ≤ x.confidence ∧ x.confidence ≤ 1 := by
  intro x hx
  unfold removeDuplicates at hx
  rw [List.mem_map] at hx
  obtain ⟨p, hp, rfl⟩ := hx
  have hall : ∀ q ∈ l.foldl rdInsert [],
      0 ≤ q.2.confidence ∧ q.2.confidence ≤ 1 :=
    foldl_preserves (fun q => 0 ≤ q.2.confidence ∧ q.2.confidence ≤ 1)
      (fun a => 0 ≤ a.confidence ∧ a.confidence ≤ 1) rdInsert
      (fun acc a x hq hacc hx => rdInsert_bounds acc a hacc hq x hx)
      l hl [] (fun y hy => absurd hy (List.not_mem_nil y))
  exact hall p hp

/-- Helper: every term returned by `detectTerms` has confidence in [0, 1]. -/
theorem detectTerms_bounds (s : String) :
    ∀ t ∈ detectTerms s, 0 ≤ t.confidence ∧ t.confidence ≤ 1 := by
  intro t ht
  have h0 : ∀ x ∈ medicalDictionary.foldl
      (pushTermMatches (s.data.map Char.toLower)) [],
      0 ≤ x.confidence ∧ x.confidence ≤ 1 :=
    foldl_preserves _ (fun _ => True) _
      (fun acc a x _ hacc hx => pushTermMatches_bounds _ acc a hacc x hx)
      medicalDictionary (fun _ _ => trivial) []
      (fun y hy => absurd hy (List.not_mem_nil y))
  have h1 : ∀ x ∈ (execAll dosageProximityRE s.data).foldl
      (fun det m => bumpNear m.start det)
      (medicalDictionary.foldl (pushTermMatches (s.data.map Char.toLower)) []),
      0 ≤ x.confidence ∧ x.confidence ≤ 1 :=
    foldl_preserves _ (fun _ => True) _
      (fun acc a x _ hacc hx => bumpNear_bounds a.start acc hacc x hx)
      _ (fun _ _ => trivial) _ h0
  simp only [detectTerms] at ht
  rw [List.mem_mergeSort] at ht
  exact removeDuplicates_bounds _ h1 t ht

/-- Helper: a detected prescription has confidence in [0, 1]: the additive
score is a sum of non-negative bonuses plus a non-negative term boost,
capped at 1 by `Math.min`. -/
theorem detectPrescription_bounds (u : String) (terms : List DetectedTerm)
    (hterms : ∀ t ∈ terms, 0 ≤ t.confidence) (a : DetectedAction)
    (h : detectPrescription u terms = some a) :
    0 ≤ a.confidence ∧ a.confidence ≤ 1 := by
  simp only [detectPrescription] at h
  split at h
  · exact absurd h (by simp)
  · rename_i medication tail hfil
    split at h
    · exact absurd h (by simp)
    · rename_i hconf
      cases h
      have hmem : medication ∈ List.filter
          (fun t => decide (t.category = Category.medication)) terms := by
        rw [hfil]
        exact List.mem_cons_self medication tail
      have hmed : 0 ≤ medication.confidence :=
        hterms medication (List.mem_of_mem_filter hmem)
      constructor
      · refine le_min (by norm_num) ?_
        refine add_nonneg (add_nonneg (add_nonneg (add_nonneg ?_ ?_) ?_) ?_)
          (mul_nonneg hmed (by norm_num)) <;>
          exact bonus_nonneg _ _ (by norm_num)
      · exact min_le_left _ _

/-- Helper: a detected lab order has confidence 0.9 or 0.7, hence in [0, 1]. -/
theorem detectLabOrder_bounds (u : String) (terms : List DetectedTerm)
    (a : DetectedAction) (h : detectLabOrder u terms = some a) :
    0 ≤ a.confidence ∧ a.confidence ≤ 1 := by
  simp only [detectLabOrder] at h
  split at h
  · exact absurd h (by simp)
  · cases h
    constructor
    · show (0:ℚ) ≤ if (labPatterns.any fun p => test p u.data) = true then 0.9 else 0.7
      split <;> norm_num
    · show (if (labPatterns.any fun p => test p u.data) = true then (0.9:ℚ) else 0.7) ≤ 1
      split <;> norm_num

/-- Helper: a detected follow-up has the fixed confidence 0.85. -/
theorem detectFollowUp_conf (u : String) (a : DetectedAction)
    (h : detectFollowUp u = some a) : a.confidence = 0.85 := by
  simp only [detectFollowUp] at h
  split at h
  · exact absurd h (by simp)
  · cases h; rfl

/-- Helper: a detected referral has the fixed confidence 0.8. -/
theorem referralLoop_conf (u : String) (s : List Char)
    (ps : List RE) (a : DetectedAction)
    (h : referralLoop u s ps = some a) : a.confidence = 0.8 := by
  induction ps with
  | nil => exact absurd h (by simp [referralLoop])
  | cons p rest ih =>
    simp only [referralLoop] at h
    split at h
    · exact ih h
    · split at h
      · cases h; rfl
      · exact ih h

/-- Helper: a detected diagnostic test has confidence 0.8 or 0.7, hence in
[0, 1]. -/
theorem detectDiagnosticTest_bounds (u : String) (terms : List DetectedTerm)
    (a : DetectedAction) (h : detectDiagnosticTest u terms = some a) :
    0 ≤ a.confidence ∧ a.confidence ≤ 1 := by
  simp only [detectDiagnosticTest] at h
  split at h
  · exact absurd h (by simp)
  · cases h
    constructor
    · split
      · norm_num
      · split <;> norm_num
    · split
      · norm_num
      · split <;> norm_num

/-- C2: every action returned by `ActionDetector.detectActions` has a
confidence in [0, 1]: the prescription matcher caps its additive score plus
the matched-term boost at 1 with `Math.min` (and it is a sum of
non-negative contributions), and every other matcher emits one of the
constants 0.9, 0.85, 0.8 or 0.7. -/
theorem claim2_confidence_bounds (utterance : String) (context : ActionContext) :
    ∀ a ∈ detectActions utterance context,
      0 ≤ a.confidence ∧ a.confidence ≤ 1 := by
  intro a ha
  by_cases hrole : context.role = Role.clinician
  · simp only [detectActions] at ha
    rw [if_neg (by simp [hrole])] at ha
    simp only [List.mem_append, Option.mem_toList, Option.mem_def] at ha
    rcases ha with ((((hp | hl) | hf) | hr) | hd)
    · exact detectPrescription_bounds utterance (detectTerms utterance)
        (fun t ht => (detectTerms_bounds utterance t ht).1) a hp
    · exact detectLabOrder_bounds utterance (detectTerms utterance) a hl
    · rw [detectFollowUp_conf utterance a hf]
      constructor <;> norm_num
    · rw [referralLoop_conf utterance utterance.data referralPatterns a hr]
      constructor <;> norm_num
    · exact detectDiagnosticTest_bounds utterance (detectTerms utterance) a hd
  · rw [detectActions, if_pos hrole] at ha
    exact absurd ha (List.not_mem_nil a)

/-- Witness for C2 at a concrete clinician utterance and its detected
prescription action. -/
theorem claim2_witness :
    rxTylenolAction ∈ detectActions "rx tylenol 5 mg" clinCtx ∧
    0 ≤ rxTylenolAction.confidence ∧ rxTylenolAction.confidence ≤ 1 :=
  ⟨by with_unfolding_all decide,
   claim2_confidence_bounds "rx tylenol 5 mg" clinCtx rxTylenolAction
     (by with_unfolding_all decide)⟩

end TranslationAssistant
